import Mathlib

/-!
Verification of the Modbus TCP client core of this repository against its
specification.  The byte-level operations are shallow embeddings of the
Python source under `archive/test-scripts/`: byte sequences are `List Nat`
(each element a byte value `< 256`), `struct.pack`/`struct.unpack` fields
become arithmetic on `Nat`, and fallible parsing returns `Except`/`Option`
exactly where the source returns an error value or raises.
-/

namespace Modbus

/-- Big-endian two-byte encoding of a value, as `struct.pack` format `H`
produces for an in-range (`< 65536`) argument. -/
def pack16 (n : Nat) : List Nat := [n / 256 % 256, n % 256]

/-- One-byte encoding of a value, as `struct.pack` format `B` produces for an
in-range (`< 256`) argument. -/
def pack8 (n : Nat) : List Nat := [n % 256]

/-- Request bytes built by `read_modbus_registers` in `check-registers.py`:
`struct.pack('>HHHBBHH', transaction_id, protocol_id, length, unit_id,
function_code, start_reg, count)` with `transaction_id = 1`, `protocol_id = 0`,
`length = 6`, `function_code = 3` fixed by the script.  `simple-modbus-test.py`
builds its request with the same format string and constants. -/
def read_modbus_registers_request (unit_id start_reg count : Nat) : List Nat :=
  pack16 1 ++ pack16 0 ++ pack16 6 ++ pack8 unit_id ++ pack8 3 ++
    pack16 start_reg ++ pack16 count

/-- Request bytes built by `create_modbus_read_request` in
`test-modbus-connection.py`: `struct.pack('>HHHBHH', transaction_id,
protocol_id, length, unit_id, function_code, start_address)` followed by
`struct.pack('>H', register_count)`.  Note the format string gives the
function code a two-byte `H` slot, not a one-byte `B` slot. -/
def create_modbus_read_request (unit_id start_address register_count : Nat) :
    List Nat :=
  (pack16 1 ++ pack16 0 ++ pack16 6 ++ pack8 unit_id ++ pack16 3 ++
    pack16 start_address) ++ pack16 register_count

/-- Big-endian 16-bit registers read off consecutive byte pairs, a trailing
odd byte dropped: the loop `for i in range(0, len(reg_data), 2): if i + 1 <
len(reg_data): struct.unpack('>H', reg_data[i:i+2])` of
`read_modbus_registers` in check-registers.py (simple-modbus-test.py runs
the same loop over its even-length data slice). -/
def regPairs : List Nat → List Nat
  | [] => []
  | [_] => []
  | b1 :: b2 :: rest => (b1 * 256 + b2) :: regPairs rest

/-- Response handling of `read_modbus_registers` in check-registers.py.
The transport outcome is a parameter: `none` stands for any exception raised
by connect/send/recv (the function's blanket `except` returns `None`);
`some response` is the received byte buffer.  The parse path returns `None`
below 9 bytes and otherwise pairs up all bytes from offset 9 on. -/
def read_modbus_registers (transport : Option (List Nat)) : Option (List Nat) :=
  match transport with
  | none => none
  | some response =>
    if response.length < 9 then none
    else some (regPairs (response.drop 9))

/-- Outcomes of `parse_modbus_response` in test-modbus-connection.py: the
first four constructors are the `(None, message)` returns (`tooShort` keeps
the reported length, `modbusError` the two numbers interpolated into the
message); `structError` is the `struct.error` the register loop raises on a
slice shorter than two bytes, which the function does not catch. -/
inductive ParseFailure where
  | tooShort (n : Nat)
  | modbusError (fc ec : Nat)
  | incomplete
  | unexpectedFunction (fc : Nat)
  | structError
  deriving DecidableEq, Repr

/-- The register loop of `parse_modbus_response`:
`for i in range(0, byte_count, 2): struct.unpack('>H', response[9+i:11+i])`.
`fuel` only drives structural recursion; `regLoop` is run with `fuel = bc`,
which bounds the iteration count, so the loop semantics is exact.  A slice
`response[9+i:11+i]` holds two bytes exactly when `11 + i ≤ len response`;
a shorter slice makes `struct.unpack` raise (`structError`). -/
def regLoop (response : List Nat) (bc : Nat) : Nat → Nat → Except ParseFailure (List Nat)
  | _, 0 => .ok []
  | i, fuel + 1 =>
    if i < bc then
      if 11 + i ≤ response.length then
        match regLoop response bc (i + 2) fuel with
        | .ok rest =>
          .ok ((response.getD (9 + i) 0 * 256 + response.getD (10 + i) 0) :: rest)
        | .error e => .error e
      else .error .structError
    else .ok []

/-- `parse_modbus_response(response)` of test-modbus-connection.py:
under 9 bytes report a short response; a function code with the `0x80` bit
set reports `Modbus error: Function (fc & 0x7F), Error response[8]`; function
code 3 reads `byte_count = response[8]`, reports `Incomplete response data`
when `len(response) < 9 + byte_count`, and otherwise collects the registers;
any other function code is unexpected. -/
def parse_modbus_response (response : List Nat) : Except ParseFailure (List Nat) :=
  if response.length < 9 then .error (.tooShort response.length)
  else
    let function_code := response.getD 7 0
    if function_code &&& 0x80 ≠ 0 then
      .error (.modbusError (function_code &&& 0x7F) (response.getD 8 0))
    else if function_code = 3 then
      let byte_count := response.getD 8 0
      if response.length < 9 + byte_count then .error .incomplete
      else regLoop response byte_count 0 byte_count
    else .error (.unexpectedFunction function_code)

/-- Protocol-error taxonomy of the specification's Frame Codec (§7). -/
inductive DecodeError where
  | shortFrame
  | transactionMismatch
  | modbusException (functionCode exceptionCode : Nat)
  | unexpectedFunction (functionCode : Nat)
  deriving DecidableEq, Repr

/-- Big-endian 16-bit field of a byte buffer at byte offset `i`. -/
def be16 (buf : List Nat) (i : Nat) : Nat :=
  buf.getD i 0 * 256 + buf.getD (i + 1) 0

/-- Modelled from the spec: `Frame Codec.decode(buffer, expectedTransactionId)`
of §4.1.  The scripts under src/ parse responses (`parse_modbus_response`,
the inline parsing of simple-modbus-test.py) but none compares the echoed
transaction id with the request's, so the transaction-validating decode of
the core is modelled from the spec's words: fail `shortFrame` below the
8-byte header, then `transactionMismatch` when the echoed id differs from
the expected one, then treat a set high bit of the function code as an
exception response carrying the 9th byte as exception code, then split a
function-code-3 payload of byte-count (9th byte) bytes into big-endian
registers, failing `shortFrame` when they are not all present; reject any
other function code. -/
def decode (buf : List Nat) (expectedTransactionId : Nat) :
    Except DecodeError (List Nat) :=
  if buf.length < 8 then .error .shortFrame
  else if be16 buf 0 ≠ expectedTransactionId then .error .transactionMismatch
  else
    let fc := buf.getD 7 0
    if fc &&& 0x80 ≠ 0 then
      .error (.modbusException (fc &&& 0x7F) (buf.getD 8 0))
    else if fc = 3 then
      let byteCount := buf.getD 8 0
      if buf.length < 9 + byteCount then .error .shortFrame
      else .ok (regPairs ((buf.drop 9).take byteCount))
    else .error (.unexpectedFunction fc)

/-- Word-order policy of the Register Assembler (§4.2). -/
inductive WordOrder where
  | lowFirst
  | highFirst
  deriving DecidableEq, Repr

/-- Failure of the Register Assembler (§4.2/§7). -/
inductive AssembleError where
  | insufficientRegisters
  deriving DecidableEq, Repr

/-- Modelled from the spec: `Register Assembler.combine(registers, wordOrder)`
of §4.2.  Each script hardcodes one ordering; the configurable word-order
policy exists only in the spec's core.  For a two-register counter,
`lowFirst` yields `registers[1] <<< 16 ||| registers[0]` and `highFirst`
yields `registers[0] <<< 16 ||| registers[1]`; fewer than two registers fail
with `insufficientRegisters`. -/
def combine (registers : List Nat) (wordOrder : WordOrder) :
    Except AssembleError Nat :=
  if registers.length < 2 then .error .insufficientRegisters
  else match wordOrder with
    | .lowFirst => .ok (registers.getD 1 0 <<< 16 ||| registers.getD 0 0)
    | .highFirst => .ok (registers.getD 0 0 <<< 16 ||| registers.getD 1 0)

/-- `combine_32bit_counter(high_reg, low_reg)` of check-registers.py:
`(high_reg << 16) | low_reg`. -/
def combine_32bit_counter (high_reg low_reg : Nat) : Nat :=
  high_reg <<< 16 ||| low_reg

/-- The inline counter assembly of `test_modbus_connection` in
test-modbus-connection.py: `counter_value = registers[1] << 16 | registers[0]`
over the first two parsed registers. -/
def tmcCounterValue (registers : List Nat) : Nat :=
  registers.getD 1 0 <<< 16 ||| registers.getD 0 0

/-- The counter assembly of `test_adam_simulator` in test_modbus_client.py:
`low_word = result.registers[0]; high_word = result.registers[1];
counter_value = (high_word << 16) | low_word`. -/
def clientCounterValue (registers : List Nat) : Nat :=
  let low_word := registers.getD 0 0
  let high_word := registers.getD 1 0
  high_word <<< 16 ||| low_word

/-- The low-word-first assembled value as the claim words it:
`registers[1] * 65536 + registers[0]`. -/
def lowFirstValue (r0 r1 : Nat) : Nat := r1 * 65536 + r0

/-- Modelled from the spec: the Device Session's transaction-id allocation of
§4.3, "monotonically increasing per session, wrapping at 16 bits".  The
scripts hardcode `transaction_id = 1` and perform a single read per
connection, so the multi-read allocator exists only in the spec's core;
`nextTransactionId` maps the id of one read to the id of the next read of
the same session. -/
def nextTransactionId (tid : Nat) : Nat := (tid + 1) % 65536

/-- A (device endpoint, logical channel) polling target (§3, Poll State). -/
structure Target where
  device : Nat
  channel : Nat
  deriving DecidableEq, Repr

/-- Per-read failures as the Poller sees them (§7). -/
inductive ReadError where
  | timeout
  | unreachable
  | decodeFailed (e : DecodeError)
  deriving DecidableEq, Repr

/-- Events emitted by the Poller (§4.4, §6); deltas are signed. -/
inductive PollEvent where
  | snapshot (t : Target) (value : Nat)
  | change (t : Target) (value : Nat) (delta : Int)
  | readFailure (t : Target) (e : ReadError)
  deriving DecidableEq, Repr

/-- Store or update the Poll State entry of one key. -/
def setValue (s : List (Target × Nat)) (t : Target) (v : Nat) :
    List (Target × Nat) :=
  match s with
  | [] => [(t, v)]
  | (u, w) :: rest => if u = t then (t, v) :: rest else (u, w) :: setValue rest t v

/-- Modelled from the spec: the Poller's handling of one completed read for
one (device, channel) key (§4.4): a first successful read stores the value
and emits a snapshot event; an equal value emits nothing; a different value
emits a change event with signed delta `newValue − previousValue` and
updates the entry; a failed read emits a read-failure event and leaves the
Poll State unchanged. -/
def processRead (s : List (Target × Nat)) (t : Target)
    (r : Except ReadError Nat) : List (Target × Nat) × Option PollEvent :=
  match r with
  | .error e => (s, some (.readFailure t e))
  | .ok v =>
    match s.lookup t with
    | none => (setValue s t v, some (.snapshot t v))
    | some p =>
      if v = p then (s, none)
      else (setValue s t v, some (.change t v ((v : Int) - (p : Int))))

/-- Modelled from the spec: one poll cycle (§4.4) processes the completed
read of every configured (device, channel) target in order; the i-th
returned event option belongs to the i-th target. -/
def pollCycle (s : List (Target × Nat)) :
    List (Target × Except ReadError Nat) →
      List (Target × Nat) × List (Option PollEvent)
  | [] => (s, [])
  | (t, r) :: rest =>
    let first := processRead s t r
    let later := pollCycle first.1 rest
    (later.1, first.2 :: later.2)

/-- Successive successful reads of one target threaded through the Poller
across cycles, returning the event option of each cycle. -/
def runValues (s : List (Target × Nat)) (t : Target) :
    List Nat → List (Option PollEvent)
  | [] => []
  | v :: vs =>
    let step := processRead s t (.ok v)
    step.2 :: runValues step.1 t vs

/-- C1: the encoder of `check-registers.py` (and `simple-modbus-test.py`)
produces the claimed 12-byte frame, `00 01 00 00 00 06 01 03 00 00 00 04` at
`(transactionId=1, unitId=1, startAddress=0, count=4)`; but the encoder
`create_modbus_read_request` of `test-modbus-connection.py` produces a
13-byte frame at every input — at the claimed input it emits
`00 01 00 00 00 06 01 00 03 00 00 00 04`, packing the function code as a
two-byte field, so the claim's 12-byte layout fails on that encoder. -/
theorem c1_request_encoder_bytes :
    read_modbus_registers_request 1 0 4
        = [0x00, 0x01, 0x00, 0x00, 0x00, 0x06, 0x01, 0x03, 0x00, 0x00, 0x00, 0x04]
      ∧ (∀ u s c, (read_modbus_registers_request u s c).length = 12)
      ∧ create_modbus_read_request 1 0 4
        = [0x00, 0x01, 0x00, 0x00, 0x00, 0x06, 0x01, 0x00, 0x03, 0x00, 0x00, 0x00, 0x04]
      ∧ (∀ u s c, (create_modbus_read_request u s c).length = 13) := by
  refine ⟨by decide, fun u s c => rfl, by decide, fun u s c => rfl⟩

theorem regPairs_length : ∀ l : List Nat, (regPairs l).length = l.length / 2
  | [] => rfl
  | [_] => by simp [regPairs]
  | _ :: _ :: rest => by
    have ih := regPairs_length rest
    simp [regPairs, ih]
    omega

theorem and128_ne_zero (b : Nat) (hhi : 128 ≤ b) (hb : b < 256) :
    b &&& 128 ≠ 0 := by
  have h7 : b.testBit 7 = true := by
    rw [Nat.testBit_to_div_mod, decide_eq_true_eq]
    have h : (2 : Nat) ^ 7 = 128 := by norm_num
    rw [h]
    omega
  intro h0
  have hand := Nat.testBit_and b 128 7
  rw [h0, h7] at hand
  simp at hand
  exact absurd hand (by decide)

theorem shiftLeft16_or_eq (a b : Nat) (hb : b < 65536) :
    a <<< 16 ||| b = a * 65536 + b := by
  have h : (2 : Nat) ^ 16 = 65536 := by norm_num
  have hb2 : b < 2 ^ 16 := by rw [h]; exact hb
  calc a <<< 16 ||| b = a * 2 ^ 16 ||| b := by rw [Nat.shiftLeft_eq]
    _ = 2 ^ 16 * a ||| b := by rw [Nat.mul_comm]
    _ = 2 ^ 16 * a + b := (Nat.mul_add_lt_is_or hb2 a).symm
    _ = a * 65536 + b := by rw [Nat.mul_comm, h]

theorem lookup_setValue (s : List (Target × Nat)) (t : Target) (v : Nat) :
    (setValue s t v).lookup t = some v := by
  induction s with
  | nil => simp [setValue]
  | cons hd rest ih =>
    obtain ⟨u, w⟩ := hd
    by_cases hu : u = t
    · subst hu; simp [setValue]
    · have htu : (t == u) = false := beq_eq_false_iff_ne.mpr fun h => hu h.symm
      simp [setValue, hu, List.lookup_cons, htu, ih]

/-- C2: a response buffer of at least 8 bytes whose big-endian transaction id
field differs from the expected transaction id always decodes to
`transactionMismatch`, whatever the rest of the frame holds, and never to a
register list. -/
theorem c2_transaction_mismatch (buf : List Nat) (tid : Nat)
    (hlen : 8 ≤ buf.length) (htid : be16 buf 0 ≠ tid) :
    decode buf tid = .error .transactionMismatch := by
  unfold decode
  rw [if_neg (by omega), if_pos htid]

/-- Witness for C2: an otherwise well-formed function-code-3 frame carrying
transaction id 5, decoded against expected id 1. -/
theorem c2_transaction_mismatch_witness :
    decode [0, 5, 0, 0, 0, 5, 1, 3, 2, 0, 7] 1 = .error .transactionMismatch :=
  c2_transaction_mismatch [0, 5, 0, 0, 0, 5, 1, 3, 2, 0, 7] 1 (by decide) (by decide)

/-- C5: a response of at least 9 bytes whose function-code byte has its high
bit set (a byte value at least 0x80) parses to the structured Modbus error
carrying `functionCode &&& 0x7F` and the 9th byte as exception code — never a
register list; for function code 0x83 the reported function is 3. -/
theorem c5_exception_response (response : List Nat)
    (hlen : 9 ≤ response.length) (hb : response.getD 7 0 < 256)
    (hhi : 0x80 ≤ response.getD 7 0) :
    parse_modbus_response response
        = .error (.modbusError (response.getD 7 0 &&& 0x7F) (response.getD 8 0))
    ∧ (response.getD 7 0 = 0x83 →
        parse_modbus_response response
          = .error (.modbusError 3 (response.getD 8 0))) := by
  have hbit : response.getD 7 0 &&& 0x80 ≠ 0 := and128_ne_zero _ hhi hb
  have h1 : parse_modbus_response response
      = .error (.modbusError (response.getD 7 0 &&& 0x7F) (response.getD 8 0)) := by
    unfold parse_modbus_response
    rw [if_neg (by omega), if_pos hbit]
  refine ⟨h1, fun h83 => ?_⟩
  rw [h83] at h1
  rwa [show (131 &&& 127 : Nat) = 3 from by decide] at h1

/-- Witness for C5: exception frame `00 01 00 00 00 03 01 83 02` decodes to
the Modbus exception (function 3, code 2). -/
theorem c5_exception_response_witness :
    parse_modbus_response [0, 1, 0, 0, 0, 3, 1, 0x83, 2]
      = .error (.modbusError 3 2) :=
  (c5_exception_response [0, 1, 0, 0, 0, 3, 1, 0x83, 2]
    (by decide) (by decide) (by decide)).2 (by decide)

/-- C6: for every register pair, `combine` under `lowFirst` yields
`registers[1] <<< 16 ||| registers[0]` and under `highFirst` yields
`registers[0] <<< 16 ||| registers[1]`; on the spec's three concrete pairs it
returns 1, 65536 and 65536. -/
theorem c6_combine_word_order :
    (∀ r0 r1 : Nat, combine [r0, r1] .lowFirst = .ok (r1 <<< 16 ||| r0))
  ∧ (∀ r0 r1 : Nat, combine [r0, r1] .highFirst = .ok (r0 <<< 16 ||| r1))
  ∧ combine [0x0001, 0x0000] .lowFirst = .ok 1
  ∧ combine [0x0000, 0x0001] .lowFirst = .ok 65536
  ∧ combine [0x0001, 0x0000] .highFirst = .ok 65536 := by
  refine ⟨fun r0 r1 => rfl, fun r0 r1 => rfl, rfl, rfl, rfl⟩

/-- C8: from any in-range transaction id, the next read's id is the successor
modulo 2^16: it stays in range, differs from the previous id, is strictly
greater except at 65535, and wraps to 0 exactly there. -/
theorem c8_transaction_id_fresh (tid : Nat) (h : tid < 65536) :
    nextTransactionId tid < 65536
  ∧ nextTransactionId tid ≠ tid
  ∧ (tid ≠ 65535 → nextTransactionId tid = tid + 1 ∧ tid < nextTransactionId tid)
  ∧ (tid = 65535 → nextTransactionId tid = 0) := by
  unfold nextTransactionId
  omega

/-- Witness for C8 at transaction id 7. -/
theorem c8_transaction_id_fresh_witness :
    nextTransactionId 7 < 65536
  ∧ nextTransactionId 7 ≠ 7
  ∧ (7 ≠ 65535 → nextTransactionId 7 = 7 + 1 ∧ 7 < nextTransactionId 7)
  ∧ (7 = 65535 → nextTransactionId 7 = 0) :=
  c8_transaction_id_fresh 7 (by decide)

/-- C10: for 16-bit register values, the three counter assemblies of the
scripts — `combine_32bit_counter(regs[1], regs[0])`, the inline
`registers[1] << 16 | registers[0]`, and `(high_word << 16) | low_word` with
`low_word = registers[0]`, `high_word = registers[1]` — all equal the
low-word-first value `registers[1] * 65536 + registers[0]`. -/
theorem c10_counter_assemblies_agree (r0 r1 : Nat)
    (h0 : r0 < 65536) (_h1 : r1 < 65536) :
    combine_32bit_counter r1 r0 = lowFirstValue r0 r1
  ∧ tmcCounterValue [r0, r1] = lowFirstValue r0 r1
  ∧ clientCounterValue [r0, r1] = lowFirstValue r0 r1 :=
  ⟨shiftLeft16_or_eq r1 r0 h0, shiftLeft16_or_eq r1 r0 h0,
    shiftLeft16_or_eq r1 r0 h0⟩

/-- Witness for C10 at the register pair (1, 2). -/
theorem c10_counter_assemblies_agree_witness :
    combine_32bit_counter 2 1 = lowFirstValue 1 2
  ∧ tmcCounterValue [1, 2] = lowFirstValue 1 2
  ∧ clientCounterValue [1, 2] = lowFirstValue 1 2 :=
  c10_counter_assemblies_agree 1 2 (by decide) (by decide)

/-- C9: `read_modbus_registers` returns a register list or `None` for every
transport outcome and every buffer: `None` on a raised transport exception
and on a buffer under 9 bytes; on a buffer of at least 9 bytes, the byte
pairs from offset 9 onward — `(len − 9) / 2` big-endian registers, the
byte-count field ignored (overwriting byte index 8 changes nothing), a
trailing odd byte dropped, and the empty list at exactly 9 bytes. -/
theorem c9_read_registers_interface :
    read_modbus_registers none = none
  ∧ (∀ response : List Nat, response.length < 9 →
      read_modbus_registers (some response) = none)
  ∧ (∀ response : List Nat, 9 ≤ response.length →
      read_modbus_registers (some response) = some (regPairs (response.drop 9))
      ∧ (regPairs (response.drop 9)).length = (response.length - 9) / 2
      ∧ (∀ b, read_modbus_registers (some (response.set 8 b))
            = read_modbus_registers (some response))
      ∧ (response.length = 9 → read_modbus_registers (some response) = some [])) := by
  refine ⟨rfl, fun response h => ?_, fun response h => ?_⟩
  · simp [read_modbus_registers, h]
  · have hnl : ¬ response.length < 9 := by omega
    refine ⟨by simp [read_modbus_registers, hnl], ?_, fun b => ?_, fun h9 => ?_⟩
    · rw [regPairs_length, List.length_drop]
    · simp [read_modbus_registers, List.drop_set, List.length_set, hnl]
    · simp [read_modbus_registers, hnl, regPairs,
        List.drop_eq_nil_of_le (by omega : response.length ≤ 9)]

/-- Witness for C9: a 3-byte buffer returns `None`; a 13-byte function-code-3
frame returns the byte pairs from offset 9, two registers. -/
theorem c9_read_registers_interface_witness :
    read_modbus_registers (some [0, 1, 2]) = none
  ∧ read_modbus_registers (some [0, 1, 0, 0, 0, 5, 1, 3, 4, 0, 1, 0, 2])
      = some (regPairs ([0, 1, 0, 0, 0, 5, 1, 3, 4, 0, 1, 0, 2].drop 9))
  ∧ (regPairs ([0, 1, 0, 0, 0, 5, 1, 3, 4, 0, 1, 0, 2].drop 9)).length
      = ([0, 1, 0, 0, 0, 5, 1, 3, 4, 0, 1, 0, 2].length - 9) / 2 :=
  ⟨c9_read_registers_interface.2.1 [0, 1, 2] (by decide),
   (c9_read_registers_interface.2.2 _ (by decide)).1,
   (c9_read_registers_interface.2.2 _ (by decide)).2.1⟩

/-- C3: per (device, channel) key, a first successful read stores the value
and emits a snapshot event; an equal later value emits nothing; a different
later value emits a change event with signed delta `new − previous` and
updates the stored value; the stored value after any successful read is the
value just read; and the value sequence `[100, 100, 150, 130]` produces
exactly snapshot(100), no event, change(150, +50), change(130, −20). -/
theorem c3_poller_delta :
    (∀ (s : List (Target × Nat)) (t : Target) (v : Nat), s.lookup t = none →
      processRead s t (.ok v) = (setValue s t v, some (.snapshot t v)))
  ∧ (∀ (s : List (Target × Nat)) (t : Target) (p : Nat), s.lookup t = some p →
      processRead s t (.ok p) = (s, none))
  ∧ (∀ (s : List (Target × Nat)) (t : Target) (v p : Nat),
      s.lookup t = some p → v ≠ p →
      processRead s t (.ok v)
        = (setValue s t v, some (.change t v ((v : Int) - (p : Int)))))
  ∧ (∀ (s : List (Target × Nat)) (t : Target) (v : Nat),
      ((processRead s t (.ok v)).1).lookup t = some v)
  ∧ runValues [] ⟨0, 0⟩ [100, 100, 150, 130]
      = [some (.snapshot ⟨0, 0⟩ 100), none,
         some (.change ⟨0, 0⟩ 150 50), some (.change ⟨0, 0⟩ 130 (-20))] := by
  refine ⟨?_, ?_, ?_, ?_, ?_⟩
  · intro s t v h; simp [processRead, h]
  · intro s t p h; simp [processRead, h]
  · intro s t v p h hne; simp [processRead, h, hne]
  · intro s t v
    cases hl : s.lookup t with
    | none => simp [processRead, hl, lookup_setValue]
    | some p =>
      by_cases hv : v = p
      · subst hv; simp [processRead, hl]
      · simp [processRead, hl, hv, lookup_setValue]
  · decide

/-- Witness for C3: the snapshot, no-event and change cases at key (0, 0)
with stored value 100. -/
theorem c3_poller_delta_witness :
    processRead [] ⟨0, 0⟩ (.ok 100)
      = (setValue [] ⟨0, 0⟩ 100, some (.snapshot ⟨0, 0⟩ 100))
  ∧ processRead [(⟨0, 0⟩, 100)] ⟨0, 0⟩ (.ok 100) = ([(⟨0, 0⟩, 100)], none)
  ∧ processRead [(⟨0, 0⟩, 100)] ⟨0, 0⟩ (.ok 150)
      = (setValue [(⟨0, 0⟩, 100)] ⟨0, 0⟩ 150,
         some (.change ⟨0, 0⟩ 150 ((150 : Int) - (100 : Int)))) :=
  ⟨c3_poller_delta.1 [] ⟨0, 0⟩ 100 rfl,
   c3_poller_delta.2.1 [(⟨0, 0⟩, 100)] ⟨0, 0⟩ 100 (by decide),
   c3_poller_delta.2.2.1 [(⟨0, 0⟩, 100)] ⟨0, 0⟩ 150 100 (by decide) (by decide)⟩

/-- C7: a failed read leaves the whole Poll State unchanged (so in particular
no entry is created or updated for its key) and only contributes a
read-failure event; a failure at the head of a cycle leaves the processing of
every remaining target exactly as it would have been; and every cycle
produces one event slot per configured target, so no failure terminates the
cycle. -/
theorem c7_failure_isolation :
    (∀ (s : List (Target × Nat)) (t : Target) (e : ReadError),
      processRead s t (.error e) = (s, some (.readFailure t e)))
  ∧ (∀ (s : List (Target × Nat)) (t : Target) (e : ReadError)
      (rest : List (Target × Except ReadError Nat)),
      pollCycle s ((t, .error e) :: rest)
        = ((pollCycle s rest).1, some (.readFailure t e) :: (pollCycle s rest).2))
  ∧ (∀ (s : List (Target × Nat)) (reads : List (Target × Except ReadError Nat)),
      ((pollCycle s reads).2).length = reads.length) := by
  refine ⟨fun s t e => rfl, fun s t e rest => rfl, ?_⟩
  intro s reads
  induction reads generalizing s with
  | nil => rfl
  | cons hd rest ih =>
    obtain ⟨t, r⟩ := hd
    simp [pollCycle, ih]

theorem regLoop_ok (response : List Nat) (bc : Nat) (hbc : bc % 2 = 0)
    (hlen : 9 + bc ≤ response.length) :
    ∀ fuel i, i % 2 = 0 → i ≤ bc → bc - i ≤ fuel →
      regLoop response bc i fuel
        = .ok (regPairs ((response.drop (9 + i)).take (bc - i))) := by
  intro fuel
  induction fuel with
  | zero =>
    intro i hi hile hf
    have hieq : i = bc := by omega
    subst hieq
    simp [regLoop, Nat.sub_self, regPairs]
  | succ k ih =>
    intro i hi hile hf
    by_cases hlt : i < bc
    · have h2 : i + 2 ≤ bc := by omega
      have h11 : 11 + i ≤ response.length := by omega
      have hrec := ih (i + 2) (by omega) h2 (by omega)
      rw [regLoop, if_pos hlt, if_pos h11, hrec]
      have h9 : 9 + i < response.length := by omega
      have h10 : 9 + i + 1 < response.length := by omega
      rw [List.drop_eq_getElem_cons h9, List.drop_eq_getElem_cons h10]
      have hbci : bc - i = (bc - (i + 2)) + 1 + 1 := by omega
      rw [hbci, List.take_succ_cons, List.take_succ_cons, regPairs]
      have e1 : 10 + i = 9 + i + 1 := by omega
      have e2 : 9 + (i + 2) = 9 + i + 1 + 1 := by omega
      rw [e1, e2]
      simp [List.getD_eq_getElem?_getD, List.getElem?_eq_getElem h9,
        List.getElem?_eq_getElem h10]
    · have hieq : i = bc := by omega
      subst hieq
      rw [regLoop, if_neg hlt]
      simp [Nat.sub_self, regPairs]

/-- C4 (amended to even byte-counts): a response with at least the 9 header
and count bytes, function code 3, and an even byte-count byte fails with the
incomplete-data error when fewer than `9 + byteCount` bytes are present, and
otherwise returns exactly the `byteCount` payload bytes split in order into
big-endian 16-bit registers — no byte beyond `9 + byteCount` contributes. -/
theorem c4_function3_payload (response : List Nat)
    (hlen : 9 ≤ response.length) (hfc : response.getD 7 0 = 3)
    (heven : response.getD 8 0 % 2 = 0) :
    (response.length < 9 + response.getD 8 0 →
      parse_modbus_response response = .error .incomplete)
  ∧ (9 + response.getD 8 0 ≤ response.length →
      parse_modbus_response response
        = .ok (regPairs ((response.drop 9).take (response.getD 8 0)))) := by
  have hn9 : ¬ response.length < 9 := by omega
  have hfc7 : response[7]?.getD 0 = 3 := by simpa using hfc
  constructor
  · intro hshort
    have hshort7 : response.length < 9 + response[8]?.getD 0 := by
      simpa using hshort
    simp [parse_modbus_response, hfc7, hn9, hshort7,
      show (3 &&& 128 : Nat) = 0 from by decide]
  · intro hok
    have hok7 : ¬ response.length < 9 + response[8]?.getD 0 := by
      simp only [List.getD_eq_getElem?_getD] at hok ⊢
      omega
    have hrl := regLoop_ok response (response.getD 8 0) heven (by omega)
      (response.getD 8 0) 0 (by omega) (by omega) (by omega)
    simp [parse_modbus_response, hfc7, hn9, hok7,
      show (3 &&& 128 : Nat) = 0 from by decide]
    simpa using hrl

/-- Counterexample for C4 as stated: with an odd byte-count of 1, two
11-byte responses that agree on their first `9 + byteCount = 10` bytes parse
to different register lists — the byte at index 10, beyond the byte-count
payload, contributes the low half of the single register. -/
theorem c4_counterexample :
    ([0, 1, 0, 0, 0, 4, 1, 3, 1, 0xAB, 0xCD] : List Nat).take 10
        = ([0, 1, 0, 0, 0, 4, 1, 3, 1, 0xAB, 0xEE] : List Nat).take 10
  ∧ ([0, 1, 0, 0, 0, 4, 1, 3, 1, 0xAB, 0xCD] : List Nat).getD 8 0 = 1
  ∧ parse_modbus_response [0, 1, 0, 0, 0, 4, 1, 3, 1, 0xAB, 0xCD] = .ok [0xABCD]
  ∧ parse_modbus_response [0, 1, 0, 0, 0, 4, 1, 3, 1, 0xAB, 0xEE] = .ok [0xABEE]
  ∧ ([0xABCD] : List Nat) ≠ [0xABEE] :=
  ⟨rfl, rfl, rfl, rfl, by decide⟩

/-- Witness for C4: a 13-byte function-code-3 frame with byte-count 4 parses
to the two registers 1 and 2. -/
theorem c4_function3_payload_witness :
    parse_modbus_response [0, 1, 0, 0, 0, 5, 1, 3, 4, 0, 1, 0, 2] = .ok [1, 2] :=
  (c4_function3_payload [0, 1, 0, 0, 0, 5, 1, 3, 4, 0, 1, 0, 2]
    (by decide) (by decide) (by decide)).2 (by decide)

end Modbus
